import Mathlib

/-!
# Verification of the tashrouter ZIP responding service

Shallow embedding of `src/tashrouter/service/zip/responding.py`
(`ZipRespondingService`): the four request handlers (`_query`,
`_get_net_info`, `_get_my_zone`, `_get_zone_list`) and the per-item dispatch
of `_run`, together with theorems settling the frozen claims about them.

Bytes are modelled as `List Nat` (each element a byte value `< 256`; theorems
carry explicit well-formedness hypotheses where a claim depends on it).
Emission of reply datagrams (`router.route`, `rx_port.send`) is modelled as a
list of effects; a Python exception escaping a handler is modelled as an
error value carried next to the effects already performed.

The collaborators that the service consumes (`Datagram`'s maximum payload
constant, the protocol constants inherited from `ZipService`, the zone
information table and its `ucase` fold, the port object) are not part of the
given source tree; these are modelled from the spec and say so in their doc
comments. Everything else is translated directly from `responding.py`.
-/

set_option autoImplicit false

/-- A byte string: a list of byte values. -/
abbrev Bytes := List Nat

/-- `data[i]` on a byte string, 0 when out of range (call sites are guarded by
the source's own length checks, as in the Python). -/
def bget (b : Bytes) (i : Nat) : Nat := b.getD i 0

/-- `struct.pack('>H', n)`: big-endian 16-bit encoding (values in range at all
call sites). -/
def pack16 (n : Nat) : Bytes := [n / 256 % 256, n % 256]

/-- `struct.unpack('>H', data[i:i+2])`: big-endian 16-bit decoding. -/
def unpack16At (b : Bytes) (i : Nat) : Nat := bget b i * 256 + bget b (i + 1)

/-- Modelled from the spec: the `ucase` case-folding primitive owned by the
zone information table ("a case-folding comparison primitive"); modelled as
ASCII uppercasing, applied bytewise.  The claims are stated through `ucase`
itself, so the exact fold does not matter to them. -/
def ucase (b : Bytes) : Bytes := b.map (fun c => if 97 ≤ c ∧ c ≤ 122 then c - 32 else c)

/-- Modelled from the spec: `Datagram.MAX_DATA_LENGTH`, the datagram type's
"hard maximum payload size" (the DDP maximum, 586 bytes). -/
def MAX_DATA_LENGTH : Nat := 586

/-- Modelled from the spec: the class-level ZIP/ATP protocol constants the
service inherits from `ZipService` (function codes, DDP types, flag bits,
socket number).  The claims depend only on these being the distinct
collaborator-defined constants, not on the particular values. -/
def ZIP_DDP_TYPE : Nat := 6

/-- Modelled from the spec: ATP DDP type constant. -/
def ATP_DDP_TYPE : Nat := 3

/-- Modelled from the spec: ZIP function code for `query`. -/
def ZIP_FUNC_QUERY : Nat := 1

/-- Modelled from the spec: ZIP function code for `reply`. -/
def ZIP_FUNC_REPLY : Nat := 2

/-- Modelled from the spec: ZIP function code for `get-net-info-request`. -/
def ZIP_FUNC_GETNETINFO_REQUEST : Nat := 5

/-- Modelled from the spec: ZIP function code for `get-net-info-reply`. -/
def ZIP_FUNC_GETNETINFO_REPLY : Nat := 6

/-- Modelled from the spec: ZIP function code for `extended reply`. -/
def ZIP_FUNC_EXT_REPLY : Nat := 8

/-- Modelled from the spec: the "zone invalid" flag bit of get-net-info. -/
def ZIP_GETNETINFO_ZONE_INVALID : Nat := 0x80

/-- Modelled from the spec: the "use broadcast" flag bit of get-net-info. -/
def ZIP_GETNETINFO_USE_BROADCAST : Nat := 0x40

/-- Modelled from the spec: the "only one zone" flag bit of get-net-info. -/
def ZIP_GETNETINFO_ONLY_ONE_ZONE : Nat := 0x20

/-- Modelled from the spec: the ZIP statically assigned socket number. -/
def ZIP_SAS : Nat := 6

/-- Modelled from the spec: ATP-transported ZIP function code GetMyZone. -/
def ZIP_ATP_FUNC_GETMYZONE : Nat := 7

/-- Modelled from the spec: ATP-transported ZIP function code GetZoneList. -/
def ZIP_ATP_FUNC_GETZONELIST : Nat := 8

/-- Modelled from the spec: ATP-transported ZIP function code GetLocalZones. -/
def ZIP_ATP_FUNC_GETLOCALZONES : Nat := 9

/-- Modelled from the spec: ATP control code for a transaction request. -/
def ATP_FUNC_TREQ : Nat := 0x40

/-- Modelled from the spec: ATP control code for a transaction response. -/
def ATP_FUNC_TRESP : Nat := 0x80

/-- Modelled from the spec: ATP end-of-message flag bit. -/
def ATP_EOM : Nat := 0x10

/-- The datagram value object (external type, referenced not owned): the
fields of `Datagram` that `responding.py` reads and writes. -/
structure Datagram where
  hop_count : Nat
  destination_network : Nat
  source_network : Nat
  destination_node : Nat
  source_node : Nat
  destination_socket : Nat
  source_socket : Nat
  ddp_type : Nat
  data : Bytes
deriving DecidableEq, Repr

/-- The receiving-port collaborator: the fields and methods of a port that
`responding.py` uses (`network`, `network_min`, `network_max`, `node`,
`multicast_address`).  Modelled from the spec: "the port abstraction, which
knows its attached network-number range and can compute a multicast address
for a given zone name". -/
structure Port where
  network : Nat
  network_min : Nat
  network_max : Nat
  node : Nat
  multicast_address : Bytes → Bytes

/-- A value used as a zone-table lookup key.  `struct.unpack` in Python
returns a *tuple* of the unpacked values; `responding.py` line 45 stores
these tuples unmodified in its `networks` list, so the embedding keeps
tuples distinct from bare numbers. -/
inductive PyVal where
  | int (n : Nat)
  | tuple (ns : List Nat)
deriving DecidableEq, Repr

/-- A Python exception escaping a handler. -/
inductive PyErr where
  | typeError
  | structError
deriving DecidableEq, Repr

/-- An observable emission of the service: `router.route(datagram)` or
`rx_port.send(network, node, datagram)`. -/
inductive Effect where
  | route (d : Datagram)
  | portSend (network : Nat) (node : Nat) (d : Datagram)
deriving DecidableEq, Repr

/-- Result of running one handler: the emissions it performed, in order, and
the exception that escaped it, if any (emissions that happened before the
exception are kept, as in Python). -/
structure HResult where
  effects : List Effect
  err : Option PyErr
deriving DecidableEq, Repr

/-- Modelled from the spec: the zone information table collaborator,
"providing ordered zone enumeration per network and per network range" in "a
stable order".  Modelled as an ordered association of network numbers to
their zone-name lists. -/
structure ZIT where
  entries : List (Nat × List Bytes)

/-- Modelled from the spec: `zit.zones_in_network(network)`, the ordered zone
enumeration for one network.  The table is keyed by network numbers, and a
lookup key matches an entry by equality, so only a bare number
(`PyVal.int`) can ever match; the 1-tuples that `_query` passes match no
entry. -/
def ZIT.zones_in_network (zit : ZIT) (key : PyVal) : List Bytes :=
  (zit.entries.filter (fun e => decide (key = PyVal.int e.1))).flatMap Prod.snd

/-- Modelled from the spec: `zit.zones_in_network_range(min, max)`, the
ordered zone enumeration for an inclusive network range. -/
def ZIT.zones_in_network_range (zit : ZIT) (network_min network_max : Nat) : List Bytes :=
  (zit.entries.filter (fun e => decide (network_min ≤ e.1 ∧ e.1 ≤ network_max))).flatMap Prod.snd

/-- Modelled from the spec: `zit.zones()`, the ordered enumeration of all
zones known to the table. -/
def ZIT.zones (zit : ZIT) : List Bytes := zit.entries.flatMap Prod.snd

/-- The single zone-list entry built by `_networks_zone_list`:
`struct.pack('>HB', network, len(zone_name)) + zone_name`.  The `.tuple` arm
is unreachable from `_query`: a tuple key matches no table entry (see
`ZIT.zones_in_network`), so no entry is ever built for one; Python's
`struct.pack` would reject a tuple at this point. -/
def zoneListEntry (network : PyVal) (zone_name : Bytes) : Bytes :=
  match network with
  | .int n => pack16 n ++ [zone_name.length % 256] ++ zone_name
  | .tuple _ => []

/-- `ZipRespondingService._networks_zone_list` (lines 34-38): for each
requested network, each of its zones paired with its wire entry. -/
def networks_zone_list (zit : ZIT) (networks : List PyVal) : List (PyVal × Bytes) :=
  networks.flatMap (fun network =>
    (zit.zones_in_network network).map (fun zone_name => (network, zoneListEntry network zone_name)))

/-- The `networks` list built on line 45 of `_query`: one
`struct.unpack('>H', ...)` result — a 1-tuple — per requested network. -/
def queryNetworks (d : Datagram) : List PyVal :=
  (List.range (bget d.data 1)).map (fun i => PyVal.tuple [unpack16At d.data (i * 2 + 2)])

/-- The reply datagram construction shared by `_query`, `_get_my_zone` and
`_get_zone_list` (route back to the source, source network/node zero,
sockets swapped). -/
def replyVia (d : Datagram) (ddp_type : Nat) (data : Bytes) : Datagram :=
  ⟨0, d.source_network, 0, d.source_node, 0, d.source_socket, d.destination_socket, ddp_type, data⟩

/-- One step of the dict-building loop on lines 60-63 of `_query`: append
`item` to the deque for `network`, inserting the key on first appearance
(Python dict insertion order). -/
def addToGroups (groups : List (PyVal × List Bytes)) (network : PyVal) (item : Bytes) :
    List (PyVal × List Bytes) :=
  match groups with
  | [] => [(network, [item])]
  | (n, l) :: rest =>
      if n = network then (n, l ++ [item]) :: rest else (n, l) :: addToGroups rest network item

/-- The `zone_list_by_network` dict of `_query` (lines 60-63). -/
def groupByNetwork (l : List (PyVal × Bytes)) : List (PyVal × List Bytes) :=
  l.foldl (fun gs e => addToGroups gs e.1 e.2) []

/-- The extended-reply datagram routed on lines 69-77 of `_query`. -/
def extReply (d : Datagram) (zone_list_len : Nat) (datagram_data : List Bytes) : Effect :=
  .route (replyVia d ZIP_DDP_TYPE
    ([ZIP_FUNC_EXT_REPLY, zone_list_len % 256] ++ datagram_data.flatten))

/-- The inner loop of `_query`'s fragmentation path (lines 65-79), iterating
`chain(zone_list, (None,))`.  When the item is the `None` sentinel the
datagram is routed and then `datagram_data_length += len(list_item)`
evaluates `len(None)`, raising `TypeError`; when a flush happens because the
next item does not fit, the accumulator `datagram_data` is *not* reset
(there is no reset in the source). -/
def fragGo (d : Datagram) (count : Nat) :
    List (Option Bytes) → List Bytes → Nat → List Effect → List Effect × Option PyErr
  | [], _, _, out => (out, none)
  | none :: _, acc, _, out => (out ++ [extReply d count acc], some .typeError)
  | some item :: rest, acc, accLen, out =>
      let out' := if MAX_DATA_LENGTH - 2 < accLen + item.length
                  then out ++ [extReply d count acc] else out
      fragGo d count rest (acc ++ [item]) (accLen + item.length) out'

/-- The outer loop of `_query`'s fragmentation path (line 64): one
`fragGo` run per network; an exception escaping the inner loop aborts the
remaining networks. -/
def fragNetworks (d : Datagram) : List (PyVal × List Bytes) → List Effect × Option PyErr
  | [] => ([], none)
  | (_, zone_list) :: rest =>
      let r := fragGo d zone_list.length (zone_list.map some ++ [none]) [] 0 []
      match r.2 with
      | some e => (r.1, some e)
      | none =>
          let r2 := fragNetworks d rest
          (r.1 ++ r2.1, r2.2)

/-- `ZipRespondingService._query` (lines 40-79). -/
def query (zit : ZIT) (d : Datagram) : HResult :=
  if d.data.length < 4 then ⟨[], none⟩
  else
    let network_count := bget d.data 1
    if d.data.length ≠ network_count * 2 + 2 then ⟨[], none⟩
    else
      let networks := queryNetworks d
      let nzl := networks_zone_list zit networks
      let byte_length := (nzl.map (fun e => e.2.length)).sum
      if byte_length + 2 ≤ MAX_DATA_LENGTH then
        ⟨[.route (replyVia d ZIP_DDP_TYPE
            ([ZIP_FUNC_REPLY, networks.length % 256] ++ (nzl.map Prod.snd).flatten))], none⟩
      else
        let r := fragNetworks d (groupByNetwork nzl)
        ⟨r.1, r.2⟩

example :
    query ⟨[(10, [[83, 97, 108, 101, 115]])]⟩ ⟨0, 0, 50, 0, 3, 0, 70, 6, [1, 1, 0, 10]⟩ =
      ⟨[.route ⟨0, 50, 0, 3, 0, 70, 0, 6, [2, 1]⟩], none⟩ := by decide

/-- The queried zone name of a get-net-info request:
`datagram.data[7:7 + datagram.data[6]]` (line 86; a Python slice truncates
silently when the payload holds fewer name bytes than the length byte
claims). -/
def givenZone (d : Datagram) : Bytes := (d.data.drop 7).take (bget d.data 6)

/-- The mutable state of `_get_net_info`'s scan loop (lines 88-102): the two
flag bits still subject to change, the default zone seen, the zone count and
the current multicast address. -/
structure GniState where
  zoneInvalid : Bool
  onlyOne : Bool
  default : Option Bytes
  numZones : Nat
  mcast : Bytes
deriving DecidableEq, Repr

/-- The scan loop of `_get_net_info` over
`zones_in_network_range(network_min, network_max)` (lines 92-102), with its
early `break` once more than one zone is known and the queried zone was
already found valid. -/
def gniScan (p : Port) (givenU : Bytes) : List Bytes → GniState → GniState
  | [], st => st
  | zone_name :: rest, st =>
      let numZones := st.numZones + 1
      let dflt := st.default.getD zone_name
      let mcast0 := if st.default = none then p.multicast_address zone_name else st.mcast
      let invalid := if ucase zone_name = givenU then false else st.zoneInvalid
      let mcast := if ucase zone_name = givenU then p.multicast_address zone_name else mcast0
      if 1 < numZones then
        if invalid = false then ⟨invalid, false, some dflt, numZones, mcast⟩
        else gniScan p givenU rest ⟨invalid, false, some dflt, numZones, mcast⟩
      else gniScan p givenU rest ⟨invalid, st.onlyOne, some dflt, numZones, mcast⟩

/-- The initial scan state: both `ZIP_GETNETINFO_ZONE_INVALID` and
`ZIP_GETNETINFO_ONLY_ONE_ZONE` set, no default zone, empty multicast
address (lines 88-91). -/
def gniInit : GniState := ⟨true, true, none, 0, []⟩

/-- The `flags` byte of the get-net-info reply, assembled from the state of
the scan and the use-broadcast decision of line 103. -/
def gniFlagsByte (zoneInvalid onlyOne useBroadcast : Bool) : Nat :=
  (if zoneInvalid then ZIP_GETNETINFO_ZONE_INVALID else 0) |||
  (if onlyOne then ZIP_GETNETINFO_ONLY_ONE_ZONE else 0) |||
  (if useBroadcast then ZIP_GETNETINFO_USE_BROADCAST else 0)

/-- `ZipRespondingService._get_net_info` (lines 81-119).  When the scan saw
no zone at all, `default_zone_name` is still `None` while the zone-invalid
flag is still set, and `len(default_zone_name)` on line 109 raises
`TypeError` before anything is sent. -/
def get_net_info (zit : ZIT) (d : Datagram) (p : Port) : HResult :=
  if p.network = 0 ∨ p.network_min = 0 ∨ p.network_max = 0 then ⟨[], none⟩
  else if d.data.length < 7 then ⟨[], none⟩
  else if (d.data.drop 1).take 5 ≠ [0, 0, 0, 0, 0] then ⟨[], none⟩
  else
    let given := givenZone d
    let st := gniScan p (ucase given) (zit.zones_in_network_range p.network_min p.network_max)
      gniInit
    let useBroadcast := st.mcast.isEmpty
    if st.zoneInvalid ∧ st.default = none then ⟨[], some .typeError⟩
    else
      let flags := gniFlagsByte st.zoneInvalid st.onlyOne useBroadcast
      let tail : Bytes :=
        if st.zoneInvalid then (st.default.getD []).length % 256 :: st.default.getD [] else []
      ⟨[.portSend d.source_network d.source_node
          ⟨0, d.source_network, p.network, d.source_node, p.node, d.source_socket, ZIP_SAS,
           ZIP_DDP_TYPE,
           [ZIP_FUNC_GETNETINFO_REPLY, flags] ++ pack16 p.network_min ++ pack16 p.network_max ++
           [given.length % 256] ++ given ++ [st.mcast.length % 256] ++ st.mcast ++ tail⟩],
       none⟩

/-- The ATP transaction id of a request, from `struct.unpack('>BBHBBH', ...)`
(field at offset 2). -/
def tidOf (d : Datagram) : Nat := unpack16At d.data 2

/-- The ATP `start_index` of a request, from `struct.unpack('>BBHBBH', ...)`
(field at offset 6). -/
def startIdxOf (d : Datagram) : Nat := unpack16At d.data 6

/-- `ZipRespondingService._get_my_zone` (lines 121-137).  The
`struct.unpack` of line 123 requires a payload of exactly 8 bytes (the
dispatch loop guarantees this).  `if not zone_name` on line 126 drops both
a missing zone (`None` from the exhausted iterator) and an empty zone name,
which the embedding folds into reading the head with default `[]`. -/
def get_my_zone (zit : ZIT) (d : Datagram) : HResult :=
  if d.data.length ≠ 8 then ⟨[], some .structError⟩
  else if startIdxOf d ≠ 0 then ⟨[], none⟩
  else
    let zone_name := (zit.zones_in_network (.int d.source_network)).headD []
    if zone_name.isEmpty then ⟨[], none⟩
    else
      ⟨[.route (replyVia d ATP_DDP_TYPE
          ([ATP_FUNC_TRESP ||| ATP_EOM, 0] ++ pack16 (tidOf d) ++ [0, 0] ++ pack16 1 ++
           [zone_name.length % 256] ++ zone_name))], none⟩

/-- The zone enumeration chosen on lines 142-143 of `_get_zone_list`:
restricted to the receiving port's attached range when a port was supplied,
all zones otherwise. -/
def gzlZones (zit : ZIT) (rx_port : Option Port) : List Bytes :=
  match rx_port with
  | some p => zit.zones_in_network_range p.network_min p.network_max
  | none => zit.zones

/-- The collection loop of `_get_zone_list` (lines 145-156): the deque of
chunks (`pack('>B', len)` then the name, per zone), the zone count, and the
last flag.  The walrus `while zone_name := next(zone_iter, None)` also ends
the loop — through its normal exit, setting the last flag — on an empty
zone name, not only on exhaustion. -/
def gzlCollect : List Bytes → Nat → List Bytes × Nat × Nat
  | [], _ => ([], 0, 1)
  | zone_name :: rest, data_length =>
      if zone_name.isEmpty then ([], 0, 1)
      else if MAX_DATA_LENGTH < data_length + 1 + zone_name.length then ([], 0, 0)
      else
        let r := gzlCollect rest (data_length + 1 + zone_name.length)
        ([zone_name.length % 256] :: zone_name :: r.1, r.2.1 + 1, r.2.2)

/-- `ZipRespondingService._get_zone_list` (lines 139-172).  The skip loop
`for _ in range(start_index - 1)` drops `start_index - 1` zones; Python's
`range` of a negative number is empty, exactly as natural-number
subtraction makes `0 - 1 = 0`. -/
def get_zone_list (zit : ZIT) (d : Datagram) (rx_port : Option Port) : HResult :=
  if d.data.length ≠ 8 then ⟨[], some .structError⟩
  else
    let zones := (gzlZones zit rx_port).drop (startIdxOf d - 1)
    let r := gzlCollect zones 8
    ⟨[.route (replyVia d ATP_DDP_TYPE
        ([ATP_FUNC_TRESP ||| ATP_EOM, 0] ++ pack16 (tidOf d) ++ [r.2.2, 0] ++ pack16 r.2.1 ++
         r.1.flatten))], none⟩

/-- The per-item dispatch of `ZipRespondingService._run` (lines 176-195):
what handling one dequeued `(datagram, rx_port)` work item does.  The loop
itself has no exception handler, so an error escaping a handler escapes the
dispatch loop and terminates the worker thread. -/
def handleItem (zit : ZIT) (d : Datagram) (rx_port : Port) : HResult :=
  if d.ddp_type = ZIP_DDP_TYPE then
    if d.data.isEmpty then ⟨[], none⟩
    else if bget d.data 0 = ZIP_FUNC_QUERY then query zit d
    else if bget d.data 0 = ZIP_FUNC_GETNETINFO_REQUEST then get_net_info zit d rx_port
    else ⟨[], none⟩
  else if d.ddp_type = ATP_DDP_TYPE then
    if d.data.length ≠ 8 then ⟨[], none⟩
    else if bget d.data 0 ≠ ATP_FUNC_TREQ ∨ bget d.data 1 ≠ 1 ∨ bget d.data 5 ≠ 0 then ⟨[], none⟩
    else if bget d.data 4 = ZIP_ATP_FUNC_GETMYZONE then get_my_zone zit d
    else if bget d.data 4 = ZIP_ATP_FUNC_GETZONELIST then get_zone_list zit d none
    else if bget d.data 4 = ZIP_ATP_FUNC_GETLOCALZONES then get_zone_list zit d (some rx_port)
    else ⟨[], none⟩
  else ⟨[], none⟩

/-- A zone table on which network 10's encoded zone list overflows one
datagram: three 200-byte zone names, 3 × (2 + 1 + 200) = 609 entry bytes. -/
def overflowTable : ZIT :=
  ⟨[(10, [List.replicate 200 65, List.replicate 200 66, List.replicate 200 67])]⟩

/-- A well-formed ZIP query datagram asking for network 10 alone. -/
def overflowQuery : Datagram := ⟨0, 0, 50, 0, 3, 0, 70, ZIP_DDP_TYPE, [ZIP_FUNC_QUERY, 1, 0, 10]⟩

set_option maxRecDepth 16384 in
/-- C1: REFUTED AS A PROPERTY OF THE CODE (code bug).  On a table whose zone
list for network 10 needs 609 entry bytes — well past the 586-byte maximum —
the query handler emits a single ordinary (not extended) reply carrying *no*
zone entries at all, instead of extended replies that together carry every
`(network, zone_name)` entry: line 45 of the source keeps each
`struct.unpack` result as a 1-tuple, which matches no zone-table key, so
the handler sees an empty zone list and the fragmentation path is never
taken (and that path, lines 64-79, never resets its accumulator and ends by
taking `len(None)`).  The first conjunct shows the claim's premise holds for
this input under an honest (integer-keyed) lookup; the second shows what the
code emits. -/
theorem c1_query_overflow_loses_entries :
    MAX_DATA_LENGTH <
        2 + ((overflowTable.zones_in_network (PyVal.int 10)).map (fun z => 3 + z.length)).sum ∧
      query overflowTable overflowQuery =
        ⟨[.route ⟨0, 50, 0, 3, 0, 70, 0, ZIP_DDP_TYPE, [ZIP_FUNC_REPLY, 1]⟩], none⟩ := by
  constructor
  · decide
  · decide

/-- A port with an assigned network range `[1, 1]` and network 1. -/
def gniPort : Port := ⟨1, 1, 1, 7, fun _ => [9]⟩

/-- A well-formed get-net-info request (empty queried zone name). -/
def gniEmptyRangeRequest : Datagram :=
  ⟨0, 0, 50, 0, 3, 0, 70, ZIP_DDP_TYPE, [ZIP_FUNC_GETNETINFO_REQUEST, 0, 0, 0, 0, 0, 0]⟩

/-- C2: REFUTED AS A PROPERTY OF THE CODE (code bug).  Handling a
get-net-info work item whose receiving port's network range contains zero
zones raises `TypeError` (line 109 evaluates `len(default_zone_name)` with
`default_zone_name` still `None`), and `_run` (lines 174-196) has no
exception handler around the dispatch, so the exception escapes the
dispatch loop and the worker thread terminates instead of continuing with
the next item. -/
theorem c2_dispatch_loop_exception_escapes :
    handleItem ⟨[]⟩ gniEmptyRangeRequest gniPort = ⟨[], some PyErr.typeError⟩ := by decide

/-- The scenario table of the spec: `{10: ["Sales", "Eng"], 20: ["HR"]}`. -/
def scenarioTable : ZIT :=
  ⟨[(10, [[83, 97, 108, 101, 115], [69, 110, 103]]), (20, [[72, 82]])]⟩

/-- The scenario request: a query for networks `[10, 20]`. -/
def scenarioQuery : Datagram :=
  ⟨0, 0, 50, 0, 3, 0, 70, ZIP_DDP_TYPE, [ZIP_FUNC_QUERY, 2, 0, 10, 0, 20]⟩

/-- C3: REFUTED AS A PROPERTY OF THE CODE (code bug).  On the spec's
scenario — networks `{10: ["Sales", "Eng"], 20: ["HR"]}`, query for
`[10, 20]` — the code does emit exactly one reply whose networks-count field
is 2, but its body is empty instead of the three
`(network, len, name)` entries: the 1-tuple lookup keys of line 45 match no
network, so every zone lookup comes back empty. -/
theorem c3_scenario_reply_body_empty :
    query scenarioTable scenarioQuery =
      ⟨[.route ⟨0, 50, 0, 3, 0, 70, 0, ZIP_DDP_TYPE, [ZIP_FUNC_REPLY, 2]⟩], none⟩ := by decide

/-- A tuple never equals a bare number, so a tuple lookup key matches no
entry of the zone table. -/
theorem zones_in_network_tuple (zit : ZIT) (xs : List Nat) :
    zit.zones_in_network (PyVal.tuple xs) = [] := by
  have h : zit.entries.filter (fun e => decide (PyVal.tuple xs = PyVal.int e.1)) = [] :=
    List.filter_eq_nil_iff.mpr (by intro a _; simp)
  rw [ZIT.zones_in_network, h]
  rfl

/-- Every network key `_query` builds is a 1-tuple, so the zone list it
gathers is always empty, whatever the table holds. -/
theorem networks_zone_list_queryNetworks (zit : ZIT) (d : Datagram) :
    networks_zone_list zit (queryNetworks d) = [] := by
  rw [networks_zone_list]
  refine List.flatMap_eq_nil_iff.mpr ?_
  intro x hx
  rw [queryNetworks] at hx
  obtain ⟨i, hi, rfl⟩ := List.mem_map.mp hx
  rw [zones_in_network_tuple]
  rfl

/-- C4: For every query request of valid length (`len = 2 + 2*count`,
minimum 4) whose gathered zone list plus the 2-byte header fits the maximum
payload, exactly one reply datagram is emitted via `route`, and its second
byte — the networks field of line 57, `len(networks)` — equals `count`, the
number of *requested* networks, regardless of how many zone entries the
body carries. -/
theorem c4_query_reply_networks_field (zit : ZIT) (d : Datagram)
    (h4 : 4 ≤ d.data.length)
    (hlen : d.data.length = bget d.data 1 * 2 + 2)
    (hcount : bget d.data 1 < 256)
    (hfit : ((networks_zone_list zit (queryNetworks d)).map (fun e => e.2.length)).sum + 2 ≤
      MAX_DATA_LENGTH) :
    ∃ reply : Datagram,
      query zit d = ⟨[.route reply], none⟩ ∧ bget reply.data 1 = bget d.data 1 := by
  refine ⟨replyVia d ZIP_DDP_TYPE
    ([ZIP_FUNC_REPLY, (queryNetworks d).length % 256] ++
     ((networks_zone_list zit (queryNetworks d)).map Prod.snd).flatten), ?_, ?_⟩
  · simp only [query]
    rw [if_neg (by omega), if_neg (by omega), if_pos hfit]
  · have hn : (queryNetworks d).length = bget d.data 1 := by
      rw [queryNetworks]; simp
    show (queryNetworks d).length % 256 = bget d.data 1
    rw [hn]
    exact Nat.mod_eq_of_lt hcount

/-- Witness for C4 at a concrete input: table `{7 : ["A"]}`, query for
network 7 alone. -/
theorem c4_query_reply_networks_field_witness :
    ∃ reply : Datagram,
      query ⟨[(7, [[65]])]⟩ ⟨0, 0, 50, 0, 3, 0, 70, ZIP_DDP_TYPE, [ZIP_FUNC_QUERY, 1, 0, 7]⟩ =
          ⟨[.route reply], none⟩ ∧
        bget reply.data 1 = 1 :=
  c4_query_reply_networks_field ⟨[(7, [[65]])]⟩
    ⟨0, 0, 50, 0, 3, 0, 70, ZIP_DDP_TYPE, [ZIP_FUNC_QUERY, 1, 0, 7]⟩
    (by decide) (by decide) (by decide) (by decide)

/-- C6 counterexample: a well-formed query with `count = 0` — payload
`[func, 0]`, length `2 = 2 + 2*0` — is dropped with no reply by the
`len(data) < 4` guard of line 42, where the claim says it is processed. -/
theorem c6_count_zero_query_dropped :
    query ⟨[(1, [[65]])]⟩ ⟨0, 0, 50, 0, 3, 0, 70, ZIP_DDP_TYPE, [ZIP_FUNC_QUERY, 0]⟩ =
      ⟨[], none⟩ := by decide

/-- C6 as amended: the query handler emits a reply exactly when the payload
length is at least 4 *and* equals `2 + 2*count`; in particular the
well-formed `count = 0` query (payload length 2) falls to the minimum-length
guard and is dropped. -/
theorem c6_query_length_validation (zit : ZIT) (d : Datagram) :
    (query zit d).effects ≠ [] ↔
      4 ≤ d.data.length ∧ d.data.length = 2 + 2 * bget d.data 1 := by
  simp only [query]
  split_ifs with h1 h2 h3
  · constructor
    · intro h; exact absurd rfl h
    · intro h; omega
  · constructor
    · intro h; exact absurd rfl h
    · intro h; omega
  · constructor
    · intro _; exact ⟨by omega, by omega⟩
    · intro _; simp
  · rw [networks_zone_list_queryNetworks] at h3
    simp [MAX_DATA_LENGTH] at h3

/-- C7 counterexample: a get-net-info request whose given-zone length byte
(5) is inconsistent with the payload length (8 bytes, only one name byte
present) still gets a reply — line 86 slices `data[7:7 + data[6]]`, which
silently truncates, and no consistency check exists. -/
theorem c7_inconsistent_length_still_replied :
    (get_net_info ⟨[(1, [[66]])]⟩
        ⟨0, 0, 50, 0, 3, 0, 70, ZIP_DDP_TYPE, [ZIP_FUNC_GETNETINFO_REQUEST, 0, 0, 0, 0, 0, 5, 65]⟩
        ⟨1, 1, 1, 8, fun _ => [7]⟩).effects ≠ [] := by decide

/-- C7 as amended: the get-net-info handler drops the request (no reply, no
exception) when the receiving port's `network`, `network_min` or
`network_max` is zero, when the payload is shorter than 7 bytes, or when
the five reserved bytes after the function code are not all zero; the
embedded given-zone length byte is *not* validated against the payload
length — the name is silently truncated to the bytes available. -/
theorem c7_get_net_info_drop_conditions (zit : ZIT) (d : Datagram) (p : Port)
    (h : p.network = 0 ∨ p.network_min = 0 ∨ p.network_max = 0 ∨ d.data.length < 7 ∨
      (d.data.drop 1).take 5 ≠ [0, 0, 0, 0, 0]) :
    get_net_info zit d p = ⟨[], none⟩ := by
  simp only [get_net_info]
  by_cases h0 : p.network = 0 ∨ p.network_min = 0 ∨ p.network_max = 0
  · rw [if_pos h0]
  · rw [if_neg h0]
    by_cases h1 : d.data.length < 7
    · rw [if_pos h1]
    · rw [if_neg h1]
      have h2 : (d.data.drop 1).take 5 ≠ [0, 0, 0, 0, 0] := by
        rcases h with h | h | h | h | h
        · exact absurd (Or.inl h) h0
        · exact absurd (Or.inr (Or.inl h)) h0
        · exact absurd (Or.inr (Or.inr h)) h0
        · exact absurd h h1
        · exact h
      rw [if_pos h2]

/-- Witness for C7's amended statement at a concrete input: a port with no
assigned network. -/
theorem c7_get_net_info_drop_conditions_witness :
    get_net_info ⟨[]⟩
        ⟨0, 0, 50, 0, 3, 0, 70, ZIP_DDP_TYPE, [ZIP_FUNC_GETNETINFO_REQUEST, 0, 0, 0, 0, 0, 0]⟩
        ⟨0, 0, 0, 8, fun _ => [7]⟩ =
      ⟨[], none⟩ :=
  c7_get_net_info_drop_conditions ⟨[]⟩
    ⟨0, 0, 50, 0, 3, 0, 70, ZIP_DDP_TYPE, [ZIP_FUNC_GETNETINFO_REQUEST, 0, 0, 0, 0, 0, 0]⟩
    ⟨0, 0, 0, 8, fun _ => [7]⟩ (Or.inl rfl)

/-- Once the scan of `_get_net_info` has cleared the zone-invalid flag, it
stays cleared for the rest of the scan. -/
theorem gniScan_invalid_mono (p : Port) (u : Bytes) (l : List Bytes) :
    ∀ st : GniState, st.zoneInvalid = false → (gniScan p u l st).zoneInvalid = false := by
  induction l with
  | nil => intro st h; exact h
  | cons z rest ih =>
    intro st h
    simp only [gniScan]
    have hinv : (if ucase z = u then false else st.zoneInvalid) = false := by
      by_cases hz : ucase z = u
      · simp [hz]
      · simp [hz, h]
    rw [hinv]
    split_ifs <;> first | rfl | exact ih _ rfl

/-- If some scanned zone case-folds to the queried name, the scan ends with
the zone-invalid flag cleared. -/
theorem gniScan_invalid_of_match (p : Port) (u : Bytes) (l : List Bytes) :
    ∀ st : GniState, (∃ z ∈ l, ucase z = u) → (gniScan p u l st).zoneInvalid = false := by
  induction l with
  | nil => intro st h; simp at h
  | cons z rest ih =>
    intro st h
    simp only [gniScan]
    by_cases hz : ucase z = u
    · rw [if_pos hz, if_pos hz]
      split_ifs <;> first | rfl | exact gniScan_invalid_mono p u rest _ rfl
    · rw [if_neg hz, if_neg hz]
      obtain ⟨w, hw, hwu⟩ := h
      have hwrest : w ∈ rest := by
        rcases List.mem_cons.mp hw with h1 | h1
        · exact absurd (h1 ▸ hwu) hz
        · exact h1
      split_ifs <;> first | assumption | exact ih _ ⟨w, hwrest, hwu⟩

/-- If no scanned zone case-folds to the queried name, the scan leaves the
zone-invalid flag as it found it. -/
theorem gniScan_invalid_of_no_match (p : Port) (u : Bytes) (l : List Bytes) :
    ∀ st : GniState, (∀ z ∈ l, ucase z ≠ u) → (gniScan p u l st).zoneInvalid = st.zoneInvalid := by
  induction l with
  | nil => intro st _; rfl
  | cons z rest ih =>
    intro st h
    simp only [gniScan]
    have hz : ¬(ucase z = u) := h z (List.mem_cons_self z rest)
    rw [if_neg hz, if_neg hz]
    split_ifs <;> first | rfl | exact ih _ (fun w hw => h w (List.mem_cons_of_mem _ hw))

/-- The default zone recorded by the scan, once set, never changes. -/
theorem gniScan_default_some (p : Port) (u : Bytes) (l : List Bytes) :
    ∀ (st : GniState) (z : Bytes), st.default = some z → (gniScan p u l st).default = some z := by
  induction l with
  | nil => intro st z h; exact h
  | cons w rest ih =>
    intro st z h
    simp only [gniScan, h, Option.getD_some]
    split_ifs <;> first | rfl | exact ih _ _ rfl

/-- Starting with no default zone, the scan records the first zone it sees
as the default. -/
theorem gniScan_default_head (p : Port) (u : Bytes) (z : Bytes) (rest : List Bytes)
    (st : GniState) (h : st.default = none) : (gniScan p u (z :: rest) st).default = some z := by
  simp only [gniScan, h, Option.getD_none]
  split_ifs <;> first | rfl | exact gniScan_default_some p u rest _ z rfl

/-- Bit 7 of the assembled flags byte is exactly the zone-invalid flag
(`ZIP_GETNETINFO_ZONE_INVALID = 0x80`). -/
theorem gniFlagsByte_testBit_invalid (zi oo ub : Bool) :
    Nat.testBit (gniFlagsByte zi oo ub) 7 = zi := by
  cases zi <;> cases oo <;> cases ub <;> decide

/-- C8 counterexample: a well-formed get-net-info request (length byte
consistent: payload `7 + 1` bytes, queried name "A") received on a port
whose network range contains *zero* zones.  No zone matches, so the claim
requires a reply whose tail carries "the first zone enumerated for the
range" — but no zone exists and the handler raises `TypeError` instead of
replying at all (line 109, `len(None)`). -/
theorem c8_gni_empty_range_no_reply :
    get_net_info ⟨[]⟩
        ⟨0, 0, 60, 0, 4, 0, 71, ZIP_DDP_TYPE, [ZIP_FUNC_GETNETINFO_REQUEST, 0, 0, 0, 0, 0, 1, 65]⟩
        ⟨2, 2, 2, 9, fun _ => [7]⟩ =
      ⟨[], some PyErr.typeError⟩ := by decide

/-- C8 as amended (restricted to ranges that enumerate at least one zone,
which the original claim tacitly assumes by speaking of "the first zone
enumerated for the range"): for every get-net-info request that passes the
validity guards, the handler sends exactly one reply through the receiving
port; its zone-invalid flag (bit 7 of the flags byte) is clear if and only
if some zone of the port's range case-folds to the queried name; the reply
echoes the queried name byte-for-byte; the scan's default zone is the first
zone enumerated for the range; and the reply carries the trailing
default-zone entry exactly when the zone-invalid flag is set. -/
theorem c8_get_net_info_zone_match (zit : ZIT) (p : Port) (d : Datagram)
    (hn : p.network ≠ 0) (hmin : p.network_min ≠ 0) (hmax : p.network_max ≠ 0)
    (hlen : 7 ≤ d.data.length)
    (hres : (d.data.drop 1).take 5 = [0, 0, 0, 0, 0])
    (hzones : zit.zones_in_network_range p.network_min p.network_max ≠ []) :
    ∃ st : GniState,
      st = gniScan p (ucase (givenZone d))
          (zit.zones_in_network_range p.network_min p.network_max) gniInit ∧
      (st.zoneInvalid = false ↔
        ∃ z ∈ zit.zones_in_network_range p.network_min p.network_max,
          ucase z = ucase (givenZone d)) ∧
      Nat.testBit (gniFlagsByte st.zoneInvalid st.onlyOne st.mcast.isEmpty) 7 = st.zoneInvalid ∧
      st.default = (zit.zones_in_network_range p.network_min p.network_max).head? ∧
      get_net_info zit d p =
        ⟨[.portSend d.source_network d.source_node
            ⟨0, d.source_network, p.network, d.source_node, p.node, d.source_socket, ZIP_SAS,
             ZIP_DDP_TYPE,
             [ZIP_FUNC_GETNETINFO_REPLY,
              gniFlagsByte st.zoneInvalid st.onlyOne st.mcast.isEmpty] ++
             pack16 p.network_min ++ pack16 p.network_max ++
             [(givenZone d).length % 256] ++ givenZone d ++
             [st.mcast.length % 256] ++ st.mcast ++
             (if st.zoneInvalid then (st.default.getD []).length % 256 :: st.default.getD []
              else [])⟩],
         none⟩ := by
  obtain ⟨z, rest, hzr⟩ := List.exists_cons_of_ne_nil hzones
  have hd : (gniScan p (ucase (givenZone d))
      (zit.zones_in_network_range p.network_min p.network_max) gniInit).default = some z := by
    rw [hzr]
    exact gniScan_default_head _ _ _ _ _ rfl
  refine ⟨_, rfl, ?_, gniFlagsByte_testBit_invalid _ _ _, ?_, ?_⟩
  · constructor
    · intro hf
      by_contra hno
      push_neg at hno
      have hkeep := gniScan_invalid_of_no_match p (ucase (givenZone d))
        (zit.zones_in_network_range p.network_min p.network_max) gniInit hno
      rw [hf] at hkeep
      simp [gniInit] at hkeep
    · intro hex
      exact gniScan_invalid_of_match _ _ _ _ hex
  · rw [hzr, List.head?_cons]
    exact gniScan_default_head _ _ _ _ _ rfl
  · have hnotcrash : ¬((gniScan p (ucase (givenZone d))
        (zit.zones_in_network_range p.network_min p.network_max) gniInit).zoneInvalid ∧
        (gniScan p (ucase (givenZone d))
          (zit.zones_in_network_range p.network_min p.network_max) gniInit).default = none) := by
      intro h
      rw [hd] at h
      simp at h
    simp only [get_net_info]
    rw [if_neg (by push_neg; exact ⟨hn, hmin, hmax⟩), if_neg (by omega),
      if_neg (fun h => h hres), if_neg hnotcrash]

/-- Witness table for C8: `{3: ["ab", "c"]}`. -/
def c8Table : ZIT := ⟨[(3, [[97, 98], [99]])]⟩

/-- Witness port for C8: network range `[3, 3]`. -/
def c8Port : Port := ⟨3, 3, 3, 5, fun z => z⟩

/-- Witness request for C8: well-formed get-net-info asking for zone "AB",
which case-folds onto the table's "ab". -/
def c8Request : Datagram :=
  ⟨0, 0, 50, 0, 3, 0, 70, ZIP_DDP_TYPE, [ZIP_FUNC_GETNETINFO_REQUEST, 0, 0, 0, 0, 0, 2, 65, 66]⟩

/-- Witness for C8's amended statement at a concrete input. -/
theorem c8_get_net_info_zone_match_witness :
    ∃ st : GniState,
      st = gniScan c8Port (ucase (givenZone c8Request))
          (c8Table.zones_in_network_range c8Port.network_min c8Port.network_max) gniInit ∧
      (st.zoneInvalid = false ↔
        ∃ z ∈ c8Table.zones_in_network_range c8Port.network_min c8Port.network_max,
          ucase z = ucase (givenZone c8Request)) ∧
      Nat.testBit (gniFlagsByte st.zoneInvalid st.onlyOne st.mcast.isEmpty) 7 = st.zoneInvalid ∧
      st.default = (c8Table.zones_in_network_range c8Port.network_min c8Port.network_max).head? ∧
      get_net_info c8Table c8Request c8Port =
        ⟨[.portSend c8Request.source_network c8Request.source_node
            ⟨0, c8Request.source_network, c8Port.network, c8Request.source_node, c8Port.node,
             c8Request.source_socket, ZIP_SAS, ZIP_DDP_TYPE,
             [ZIP_FUNC_GETNETINFO_REPLY,
              gniFlagsByte st.zoneInvalid st.onlyOne st.mcast.isEmpty] ++
             pack16 c8Port.network_min ++ pack16 c8Port.network_max ++
             [(givenZone c8Request).length % 256] ++ givenZone c8Request ++
             [st.mcast.length % 256] ++ st.mcast ++
             (if st.zoneInvalid then (st.default.getD []).length % 256 :: st.default.getD []
              else [])⟩],
         none⟩ :=
  c8_get_net_info_zone_match c8Table c8Port c8Request (by decide) (by decide) (by decide)
    (by decide) (by decide) (by decide)

/-- Spec-side definition, following the spec's words (for comparison with
the code): the greedy page of `get-zone-list` — with `used` bytes already
accounted for (the 8-byte header), collect consecutive zone names until
adding the next entry (one length byte plus the name) would push past the
maximum datagram size. -/
def specGreedyPage : List Bytes → Nat → List Bytes
  | [], _ => []
  | zone_name :: rest, used =>
      if MAX_DATA_LENGTH < used + 1 + zone_name.length then []
      else zone_name :: specGreedyPage rest (used + 1 + zone_name.length)

/-- Spec-side definition: the wire encoding of a page of zone-name entries,
`[len:1][name]` each. -/
def specZoneEntryBytes (page : List Bytes) : Bytes :=
  page.flatMap (fun z => z.length % 256 :: z)

/-- Flattening the loop's two-chunks-per-zone deque gives the page's wire
encoding. -/
theorem flatten_entry_chunks (page : List Bytes) :
    (page.flatMap (fun z => [[z.length % 256], z])).flatten = specZoneEntryBytes page := by
  induction page with
  | nil => rfl
  | cons z rest ih =>
    simp only [specZoneEntryBytes, List.flatMap_cons, List.flatten_append] at *
    rw [ih]
    simp

/-- The collection loop of `_get_zone_list` computes exactly the greedy
page: its chunks flatten to the page's entries, its zone count is the
page's length, and its last flag is 1 exactly when the page swallowed the
whole remaining sequence.  The no-empty-name hypothesis rules out the one
divergence: the walrus `while` condition would end the loop early — with
the last flag set — on an empty zone name. -/
theorem gzlCollect_spec (l : List Bytes) : ∀ used : Nat, (∀ z ∈ l, z ≠ []) →
    gzlCollect l used =
      ((specGreedyPage l used).flatMap (fun z => [[z.length % 256], z]),
       (specGreedyPage l used).length,
       if specGreedyPage l used = l then 1 else 0) := by
  induction l with
  | nil => intro used h; simp [gzlCollect, specGreedyPage]
  | cons z rest ih =>
    intro used h
    have hz : ¬(z.isEmpty = true) := by
      simpa using h z (List.mem_cons_self z rest)
    rw [gzlCollect, specGreedyPage, if_neg hz]
    by_cases hfit : MAX_DATA_LENGTH < used + 1 + z.length
    · rw [if_pos hfit, if_pos hfit]
      simp
    · rw [if_neg hfit, if_neg hfit,
        ih (used + 1 + z.length) (fun w hw => h w (List.mem_cons_of_mem _ hw))]
      simp [List.cons.injEq]

/-- C5: For every get-zone-list request (restricted to a port's range or
unrestricted) of valid length with a 1-relative `start_index ≥ 1`, over a
table whose zone names are nonempty: the handler skips exactly
`start_index - 1` zones of the enumerated sequence, then routes exactly one
reply whose body is the greedy page — consecutive `[len][name]` entries
collected until the next one would push the 8-byte header plus entries past
the maximum datagram size — whose zone-count field is the page's length,
and whose last-flag byte is 1 if and only if the page reaches the end of
the zone sequence. -/
theorem c5_get_zone_list_pagination (zit : ZIT) (d : Datagram) (rx_port : Option Port)
    (h8 : d.data.length = 8)
    (_hs : 1 ≤ startIdxOf d)
    (hwf : ∀ z ∈ gzlZones zit rx_port, z ≠ []) :
    ∃ lf : Nat,
      get_zone_list zit d rx_port =
        ⟨[.route (replyVia d ATP_DDP_TYPE
            ([ATP_FUNC_TRESP ||| ATP_EOM, 0] ++ pack16 (tidOf d) ++ [lf, 0] ++
             pack16 (specGreedyPage ((gzlZones zit rx_port).drop (startIdxOf d - 1)) 8).length ++
             specZoneEntryBytes
               (specGreedyPage ((gzlZones zit rx_port).drop (startIdxOf d - 1)) 8)))], none⟩ ∧
      (lf = 1 ↔
        specGreedyPage ((gzlZones zit rx_port).drop (startIdxOf d - 1)) 8 =
          (gzlZones zit rx_port).drop (startIdxOf d - 1)) ∧
      (lf = 0 ∨ lf = 1) := by
  have hdrop : ∀ z ∈ (gzlZones zit rx_port).drop (startIdxOf d - 1), z ≠ [] :=
    fun z hz => hwf z (List.mem_of_mem_drop hz)
  refine ⟨if specGreedyPage ((gzlZones zit rx_port).drop (startIdxOf d - 1)) 8 =
      (gzlZones zit rx_port).drop (startIdxOf d - 1) then 1 else 0, ?_, ?_, ?_⟩
  · simp only [get_zone_list]
    rw [if_neg (fun hh => hh h8), gzlCollect_spec _ 8 hdrop, flatten_entry_chunks]
  · split_ifs with hp
    · simp [hp]
    · simp [hp]
  · split_ifs
    · right; rfl
    · left; rfl

/-- Witness table for C5: zones "A", "B" on network 50 and "C" on 51. -/
def c5Table : ZIT := ⟨[(50, [[65], [66]]), (51, [[67]])]⟩

/-- Witness request for C5: get-zone-list with `start_index = 2`. -/
def c5Request : Datagram :=
  ⟨0, 0, 50, 0, 3, 0, 70, ATP_DDP_TYPE, [ATP_FUNC_TREQ, 1, 0, 9, ZIP_ATP_FUNC_GETZONELIST, 0, 0, 2]⟩

/-- Witness for C5 at a concrete input (unrestricted enumeration, skipping
one zone). -/
theorem c5_get_zone_list_pagination_witness :
    ∃ lf : Nat,
      get_zone_list c5Table c5Request none =
        ⟨[.route (replyVia c5Request ATP_DDP_TYPE
            ([ATP_FUNC_TRESP ||| ATP_EOM, 0] ++ pack16 (tidOf c5Request) ++ [lf, 0] ++
             pack16 (specGreedyPage ((gzlZones c5Table none).drop (startIdxOf c5Request - 1))
               8).length ++
             specZoneEntryBytes
               (specGreedyPage ((gzlZones c5Table none).drop (startIdxOf c5Request - 1))
                 8)))], none⟩ ∧
      (lf = 1 ↔
        specGreedyPage ((gzlZones c5Table none).drop (startIdxOf c5Request - 1)) 8 =
          (gzlZones c5Table none).drop (startIdxOf c5Request - 1)) ∧
      (lf = 0 ∨ lf = 1) :=
  c5_get_zone_list_pagination c5Table c5Request none (by decide) (by decide) (by decide)

/-- Reading the head of a list with a default is reading `head?` with that
default. -/
theorem headD_eq_head?_getD (l : List Bytes) : l.headD [] = l.head?.getD [] := by
  cases l <;> rfl

/-- C9: For every 8-byte get-my-zone request over a table whose zone names
are nonempty: a nonzero `start_index` yields no reply; with `start_index`
zero and no zone registered for the datagram's *source network*, no reply;
with `start_index` zero and a first zone for the source network, exactly
one reply is routed, carrying the request's transaction id, the
end-of-message flag on the response control byte, zero user bytes, a zone
count of one, and the single `[len][name]` entry of that first zone. -/
theorem c9_get_my_zone (zit : ZIT) (d : Datagram) (h8 : d.data.length = 8) :
    (startIdxOf d ≠ 0 → get_my_zone zit d = ⟨[], none⟩) ∧
    (startIdxOf d = 0 → (zit.zones_in_network (.int d.source_network)).head? = none →
      get_my_zone zit d = ⟨[], none⟩) ∧
    (∀ zone_name : Bytes, startIdxOf d = 0 →
      (zit.zones_in_network (.int d.source_network)).head? = some zone_name → zone_name ≠ [] →
      get_my_zone zit d =
        ⟨[.route (replyVia d ATP_DDP_TYPE
            ([ATP_FUNC_TRESP ||| ATP_EOM, 0] ++ pack16 (tidOf d) ++ [0, 0] ++ pack16 1 ++
             [zone_name.length % 256] ++ zone_name))], none⟩) := by
  refine ⟨?_, ?_, ?_⟩
  · intro hs
    simp only [get_my_zone]
    rw [if_neg (fun hh => hh h8), if_pos hs]
  · intro hs hz
    simp only [get_my_zone]
    rw [if_neg (fun hh => hh h8), if_neg (fun hh => hh hs), headD_eq_head?_getD, hz]
    rfl
  · intro zone_name hs hz hne
    simp only [get_my_zone]
    rw [if_neg (fun hh => hh h8), if_neg (fun hh => hh hs), headD_eq_head?_getD, hz]
    rw [if_neg (by simpa using hne)]
    rfl

/-- Witness for C9 at a concrete input: table `{50: ["AB"]}`, request with
`start_index = 0` from source network 50. -/
theorem c9_get_my_zone_witness :
    get_my_zone ⟨[(50, [[65, 66]])]⟩
        ⟨0, 0, 50, 0, 3, 0, 70, ATP_DDP_TYPE,
         [ATP_FUNC_TREQ, 1, 0, 9, ZIP_ATP_FUNC_GETMYZONE, 0, 0, 0]⟩ =
      ⟨[.route (replyVia
          ⟨0, 0, 50, 0, 3, 0, 70, ATP_DDP_TYPE,
           [ATP_FUNC_TREQ, 1, 0, 9, ZIP_ATP_FUNC_GETMYZONE, 0, 0, 0]⟩ ATP_DDP_TYPE
          ([ATP_FUNC_TRESP ||| ATP_EOM, 0] ++
           pack16 (tidOf ⟨0, 0, 50, 0, 3, 0, 70, ATP_DDP_TYPE,
             [ATP_FUNC_TREQ, 1, 0, 9, ZIP_ATP_FUNC_GETMYZONE, 0, 0, 0]⟩) ++ [0, 0] ++
           pack16 1 ++ [([65, 66] : Bytes).length % 256] ++ [65, 66]))], none⟩ :=
  ((c9_get_my_zone ⟨[(50, [[65, 66]])]⟩
      ⟨0, 0, 50, 0, 3, 0, 70, ATP_DDP_TYPE,
       [ATP_FUNC_TREQ, 1, 0, 9, ZIP_ATP_FUNC_GETMYZONE, 0, 0, 0]⟩
      (by decide)).2.2) [65, 66] (by decide) (by decide) (by decide)

/-- A byte string of length 8 is a literal list of its eight bytes. -/
theorem exists_eight_bytes : ∀ (l : Bytes), l.length = 8 →
    ∃ b0 b1 b2 b3 b4 b5 b6 b7, l = [b0, b1, b2, b3, b4, b5, b6, b7]
  | [b0, b1, b2, b3, b4, b5, b6, b7], _ => ⟨b0, b1, b2, b3, b4, b5, b6, b7, rfl⟩
  | [], h => by simp at h
  | [_], h => by simp at h
  | [_, _], h => by simp at h
  | [_, _, _], h => by simp at h
  | [_, _, _, _], h => by simp at h
  | [_, _, _, _, _], h => by simp at h
  | [_, _, _, _, _, _], h => by simp at h
  | [_, _, _, _, _, _, _], h => by simp at h
  | _ :: _ :: _ :: _ :: _ :: _ :: _ :: _ :: _ :: _, h => by simp at h

set_option maxRecDepth 8192 in
/-- C10: A get-zone-list request with `start_index = 0` skips no zones and
gets exactly the same reply as the same request with `start_index = 1`:
`range(start_index - 1)` is empty for both 0 and 1, and nothing else in the
handler reads the start index. -/
theorem c10_get_zone_list_start_zero (zit : ZIT) (rx_port : Option Port) (d : Datagram)
    (h8 : d.data.length = 8) (h0 : startIdxOf d = 0) :
    get_zone_list zit d rx_port =
      get_zone_list zit { d with data := d.data.take 6 ++ [0, 1] } rx_port := by
  obtain ⟨hc, dnet, snet, dnode, snode, dsock, ssock, ddp, data⟩ := d
  obtain ⟨b0, b1, b2, b3, b4, b5, b6, b7, hl⟩ := exists_eight_bytes data h8
  subst hl
  have h67 : b6 * 256 + b7 = 0 := h0
  have h6 : b6 = 0 := by omega
  have h7 : b7 = 0 := by omega
  subst h6
  subst h7
  rfl

/-- Witness for C10 at a concrete input: the C5 witness table with
`start_index = 0`. -/
theorem c10_get_zone_list_start_zero_witness :
    get_zone_list ⟨[(50, [[65], [66]]), (51, [[67]])]⟩
        ⟨0, 0, 50, 0, 3, 0, 70, ATP_DDP_TYPE,
         [ATP_FUNC_TREQ, 1, 0, 9, ZIP_ATP_FUNC_GETZONELIST, 0, 0, 0]⟩ none =
      get_zone_list ⟨[(50, [[65], [66]]), (51, [[67]])]⟩
        { (⟨0, 0, 50, 0, 3, 0, 70, ATP_DDP_TYPE,
            [ATP_FUNC_TREQ, 1, 0, 9, ZIP_ATP_FUNC_GETZONELIST, 0, 0, 0]⟩ : Datagram) with
          data := ([ATP_FUNC_TREQ, 1, 0, 9, ZIP_ATP_FUNC_GETZONELIST, 0, 0, 0] : Bytes).take 6 ++
            [0, 1] } none :=
  c10_get_zone_list_start_zero ⟨[(50, [[65], [66]]), (51, [[67]])]⟩ none
    ⟨0, 0, 50, 0, 3, 0, 70, ATP_DDP_TYPE,
     [ATP_FUNC_TREQ, 1, 0, 9, ZIP_ATP_FUNC_GETZONELIST, 0, 0, 0]⟩
    (by decide) (by decide)
